import Mathlib

/-!
Shallow embedding of the LDAP auth provider
(`homeassistant/auth/providers/ldap.py`): the authentication decision
routine `async_validate_login`, the login-flow step `async_step_init`,
and the credential resolution `async_get_or_create_credentials`.

The external directory server and transport (the `ldap3` library) are
modelled as an oracle (`LdapDirectory`): whether the TCP/TLS connection
can be opened, which (method, user, password) triples bind successfully,
whether a STARTTLS upgrade succeeds, and what a search call returns.
`async_validate_login` additionally records the trace of protocol
operations it performs, in order, so that ordering claims can be stated.
-/

/-- The three encryption modes of the configuration
(`ldaps` | `none` | `starttls`, lines 26-28 of the source). -/
inductive Encryption where
  | encNone
  | ldaps
  | starttls
deriving DecidableEq, Repr

/-- The configuration consumed by the provider (validated upstream by
`CONFIG_SCHEMA`, lines 42-64).  Optional service-account credentials are
modelled as plain strings, as the code reads them only on the branch that
uses them. -/
structure LdapConfig where
  server : String
  port : Nat
  encryption : Encryption
  validate_certificates : Bool
  timeout : Nat
  base_dn : String
  username_attribute : String
  active_directory : Bool
  bind_as_user : Bool
  bind_username : String
  bind_password : String
  allowed_group_dns : List String

/-- One directory entry as the code reads it from `conn.entries[0]`
(lines 156-167): attribute lookup by name (`getattr(entry, attr).value`),
the display name, the `memberOf` values and the entry's DN. -/
structure LdapEntry where
  attrValue : String → String
  displayName : String
  memberOf : List String
  entry_dn : String

/-- Authentication method of a bind: simple bind with a DN, or NTLM for
Active Directory mode (lines 121-135). -/
inductive AuthMethod where
  | simple
  | ntlm
deriving DecidableEq, Repr

/-- The external directory server and transport, as an oracle.
`bind` answers every (method, user, password) triple, so the initial bind
and the re-bind consult the same directory state. -/
structure LdapDirectory where
  connectOk : Bool
  bind : AuthMethod → String → String → Bool
  starttlsOk : Bool
  search : String → String → Nat → Nat → List String → Option LdapEntry

/-- `ldap3` exceptions that are not `LDAPBindError` and hence are not
caught by the `except` clause at line 188: a socket-open (DNS/connect/TLS)
failure and a STARTTLS upgrade failure. -/
inductive LdapException where
  | socketOpenError
  | startTlsError
deriving DecidableEq, Repr

/-- Outcome of `async_validate_login`: normal return (with the uid and
display name extracted at lines 156-158), an `InvalidAuthError` with its
message, an `LdapError`, or an `ldap3` exception escaping uncaught. -/
inductive ValidateResult where
  | success (uid displayName : String)
  | invalidAuth (detail : String)
  | ldapError
  | uncaughtExc (e : LdapException)
deriving DecidableEq, Repr

/-- Protocol operations performed on the connection, in order: the
initial `Connection(..., auto_bind=True)` bind, the `starttls()` upgrade,
the `search(...)` call and the `rebind(...)` call. -/
inductive LdapOp where
  | connectBind (method : AuthMethod) (user password : String)
  | starttlsOp
  | searchOp (base filter : String) (sizeLimit timeLimit : Nat) (attributes : List String)
  | rebindOp (user password : String)
deriving DecidableEq, Repr

/-- Lines 107-109: the bind username is the configured service-account
username when `bind_as_user` is set, the request's username otherwise. -/
def effective_bind_username (cfg : LdapConfig) (username : String) : String :=
  if cfg.bind_as_user then cfg.bind_username else username

/-- Lines 110-112: the bind password is the configured service-account
password when `bind_as_user` is set, the request's password otherwise. -/
def effective_bind_password (cfg : LdapConfig) (password : String) : String :=
  if cfg.bind_as_user then cfg.bind_password else password

/-- Lines 116-120: `sAMAccountName` in Active Directory mode, the
configured username attribute otherwise. -/
def username_attr (cfg : LdapConfig) : String :=
  if cfg.active_directory then "sAMAccountName" else cfg.username_attribute

/-- Lines 121-135: NTLM authentication in Active Directory mode, simple
bind otherwise. -/
def bind_method (cfg : LdapConfig) : AuthMethod :=
  if cfg.active_directory then AuthMethod.ntlm else AuthMethod.simple

/-- Lines 124 and 132: the user string passed to `Connection` — the raw
bind username in AD mode, the constructed DN
`"<attr>=<bind_username>,<base_dn>"` otherwise. -/
def bind_user (cfg : LdapConfig) (bindUsername : String) : String :=
  if cfg.active_directory then bindUsername
  else username_attr cfg ++ "=" ++ bindUsername ++ "," ++ cfg.base_dn

/-- Line 151: the attribute list requested from the search. -/
def search_attributes (cfg : LdapConfig) : List String :=
  [username_attr cfg, "displayName", "memberOf"]

/-- Lines 170-173: `member = False; for group in allowed: if group.lower()
in [g.lower() for g in user_groups]: member = True`. -/
def group_member (allowed userGroups : List String) : Bool :=
  allowed.foldl
    (fun member group =>
      if (userGroups.map (fun g => g.toLower)).contains group.toLower then true else member)
    false

/-- `async_validate_login` (lines 88-190), returning the outcome together
with the trace of protocol operations performed.  The `try` block's
`except LDAPBindError` (lines 188-190) turns an initial-bind failure into
`InvalidAuthError` (no message); other `ldap3` exceptions — socket-open
failures from `Connection(..., auto_bind=True)` and STARTTLS upgrade
failures from `conn.starttls()` — are not caught and escape.  The group
block (lines 162-179) runs only when the allow-list is non-empty, and the
re-bind (lines 182-186) only when `bind_as_user` is false, exactly as the
guard `not bind_as_user and not conn.rebind(...)` short-circuits. -/
def async_validate_login (cfg : LdapConfig) (dir : LdapDirectory)
    (username password : String) : ValidateResult × List LdapOp :=
  if dir.connectOk = false then
    (ValidateResult.uncaughtExc LdapException.socketOpenError, [])
  else if dir.bind (bind_method cfg) (bind_user cfg (effective_bind_username cfg username))
      (effective_bind_password cfg password) = false then
    (ValidateResult.invalidAuth "",
      [LdapOp.connectBind (bind_method cfg)
        (bind_user cfg (effective_bind_username cfg username))
        (effective_bind_password cfg password)])
  else
    let ops1 := [LdapOp.connectBind (bind_method cfg)
      (bind_user cfg (effective_bind_username cfg username))
      (effective_bind_password cfg password)]
    if cfg.encryption = Encryption.starttls ∧ dir.starttlsOk = false then
      (ValidateResult.uncaughtExc LdapException.startTlsError, ops1 ++ [LdapOp.starttlsOp])
    else
      let ops2 := if cfg.encryption = Encryption.starttls
        then ops1 ++ [LdapOp.starttlsOp] else ops1
      let ops3 := ops2 ++ [LdapOp.searchOp cfg.base_dn "(objectclass=person)" 1 cfg.timeout
        (search_attributes cfg)]
      match dir.search cfg.base_dn "(objectclass=person)" 1 cfg.timeout
          (search_attributes cfg) with
      | none => (ValidateResult.ldapError, ops3)
      | some entry =>
        if cfg.allowed_group_dns ≠ [] ∧ group_member cfg.allowed_group_dns entry.memberOf = false then
          (ValidateResult.invalidAuth
            ("User " ++ entry.attrValue (username_attr cfg) ++
              " is not a member of any of the required groups"), ops3)
        else if cfg.bind_as_user = false then
          if dir.bind (bind_method cfg) entry.entry_dn password = false then
            (ValidateResult.invalidAuth "Invalid LDAP credentials provided",
              ops3 ++ [LdapOp.rebindOp entry.entry_dn password])
          else
            (ValidateResult.success (entry.attrValue (username_attr cfg)) entry.displayName,
              ops3 ++ [LdapOp.rebindOp entry.entry_dn password])
        else
          (ValidateResult.success (entry.attrValue (username_attr cfg)) entry.displayName, ops3)

/-- `user_input[key]` on an association-list model of the dict. -/
def getField (input : List (String × String)) (key : String) : String :=
  match input.find? (fun kv => kv.fst == key) with
  | some kv => kv.snd
  | none => ""

/-- Result of one login-flow step: re-show the form (with its field list
and error dict), finish with the remaining `user_input` payload, or let
an uncaught exception escape. -/
inductive StepResult where
  | showForm (stepId : String) (fields : List String) (errors : List (String × String))
  | finish (payload : List (String × String))
  | uncaught (e : LdapException)
deriving DecidableEq, Repr

/-- `LdapLoginFlow.async_step_init` (lines 218-245): with no input, show
the form with schema `username`, `password`; with input, validate and map
`InvalidAuthError` to `invalid_auth`, `LdapError` to `error`; on no error
pop `password` and finish with the rest of `user_input`.  Exceptions other
than those two escape the step. -/
def async_step_init (cfg : LdapConfig) (dir : LdapDirectory)
    (user_input : Option (List (String × String))) : StepResult :=
  match user_input with
  | none => StepResult.showForm "init" ["username", "password"] []
  | some input =>
    match (async_validate_login cfg dir (getField input "username")
        (getField input "password")).fst with
    | ValidateResult.invalidAuth _ =>
      StepResult.showForm "init" ["username", "password"] [("base", "invalid_auth")]
    | ValidateResult.ldapError =>
      StepResult.showForm "init" ["username", "password"] [("base", "error")]
    | ValidateResult.uncaughtExc e => StepResult.uncaught e
    | ValidateResult.success _ _ =>
      StepResult.finish (input.filter (fun kv => kv.fst != "password"))

/-- A host-owned credential record: an identity (to tell records apart)
and its stored `data["username"]`. -/
structure Credential where
  id : Nat
  username : String
deriving DecidableEq, Repr

/-- Whether an existing credential was returned or a new one created. -/
inductive CredentialResult where
  | existing (c : Credential)
  | created (username : String)
deriving DecidableEq, Repr

/-- `async_get_or_create_credentials` (lines 192-203): scan the provider's
stored credentials for the first whose `data["username"]` equals the flow
result's username; return it, else create a new credential. -/
def async_get_or_create_credentials (stored : List Credential)
    (flow_result : List (String × String)) : CredentialResult :=
  let username := getField flow_result "username"
  match stored.find? (fun c => c.username == username) with
  | some c => CredentialResult.existing c
  | none => CredentialResult.created username

/-! ### Concrete fixtures (directory states and configurations) -/

/-- A directory entry for user alice: uid attribute `alice`, display name
`Alice Person`, member of the staff group. -/
def entry_alice : LdapEntry where
  attrValue := fun a => if a == "uid" then "alice" else ""
  displayName := "Alice Person"
  memberOf := ["cn=staff,dc=example,dc=com"]
  entry_dn := "uid=alice,dc=example,dc=com"

/-- A directory that accepts exactly the service-account bind
`uid=svc,dc=example,dc=com` / `svcpw` and returns `entry_alice` from a
person search under `dc=example,dc=com`.  Any other bind — in particular
a re-bind as `entry_alice.entry_dn` with a wrong password — fails. -/
def dir_service : LdapDirectory where
  connectOk := true
  bind := fun _ user pw => user == "uid=svc,dc=example,dc=com" && pw == "svcpw"
  starttlsOk := true
  search := fun base filter _ _ _ =>
    if base == "dc=example,dc=com" && filter == "(objectclass=person)" then some entry_alice
    else none

/-- The default-shaped configuration: service-account bind
(`bind_as_user = true`), LDAPS, no group allow-list. -/
def cfg_service : LdapConfig where
  server := "ldap.example.com"
  port := 636
  encryption := Encryption.ldaps
  validate_certificates := true
  timeout := 10
  base_dn := "dc=example,dc=com"
  username_attribute := "uid"
  active_directory := false
  bind_as_user := true
  bind_username := "svc"
  bind_password := "svcpw"
  allowed_group_dns := []

/-- A directory entry for user bob whose own DN (`cn=bobby,...`) differs
from the DN constructed from the username attribute. -/
def entry_bob : LdapEntry where
  attrValue := fun a => if a == "uid" then "bob" else ""
  displayName := "Bob Person"
  memberOf := []
  entry_dn := "cn=bobby,dc=example,dc=com"

/-- A directory that accepts password `pw` for both bob's constructed DN
and his entry DN, and returns `entry_bob` from a person search. -/
def dir_user : LdapDirectory where
  connectOk := true
  bind := fun _ user pw =>
    (user == "uid=bob,dc=example,dc=com" || user == "cn=bobby,dc=example,dc=com") && pw == "pw"
  starttlsOk := true
  search := fun base filter _ _ _ =>
    if base == "dc=example,dc=com" && filter == "(objectclass=person)" then some entry_bob
    else none

/-- Configuration that binds directly as the end user
(`bind_as_user = false`). -/
def cfg_user : LdapConfig :=
  { cfg_service with bind_as_user := false, bind_username := "", bind_password := "" }

/-- An unreachable directory server: the connection cannot be opened. -/
def dir_down : LdapDirectory where
  connectOk := false
  bind := fun _ _ _ => false
  starttlsOk := false
  search := fun _ _ _ _ _ => none

/-- A directory reachable and accepting the service bind, whose person
search returns no entries. -/
def dir_empty : LdapDirectory where
  connectOk := true
  bind := fun _ user pw => user == "uid=svc,dc=example,dc=com" && pw == "svcpw"
  starttlsOk := true
  search := fun _ _ _ _ _ => none

/-- Configuration with the spec's example allow-list. -/
def cfg_group : LdapConfig :=
  { cfg_service with allowed_group_dns := ["CN=Staff,DC=Example,DC=Com"] }

/-- The service-bind configuration switched to STARTTLS encryption. -/
def cfg_tls : LdapConfig := { cfg_service with encryption := Encryption.starttls }

/-- A previously issued credential for alice. -/
def cred_alice : Credential where
  id := 7
  username := "alice"

/-- Configuration for the C10 scenario: end-user bind with a non-empty
allow-list the entry does not satisfy. -/
def cfg_c10 : LdapConfig :=
  { cfg_service with
      bind_as_user := false
      bind_username := ""
      bind_password := ""
      allowed_group_dns := ["CN=Admins,DC=Example,DC=Com"] }

/-- Directory for the C10 scenario: bob's constructed-DN bind succeeds
with password `pw`, but a re-bind as the found entry's own DN
(`cn=bobby,...`) fails for every password. -/
def dir_c10 : LdapDirectory where
  connectOk := true
  bind := fun _ user pw => user == "uid=bob,dc=example,dc=com" && pw == "pw"
  starttlsOk := true
  search := fun base filter _ _ _ =>
    if base == "dc=example,dc=com" && filter == "(objectclass=person)" then some entry_bob
    else none

/-! ### Claim theorems -/

/-- Claim C1: the claim says that with bind-as-service-account enabled a
successful service bind and search are followed by a re-bind with the
found entry's DN and the request's password, so a wrong password fails
with InvalidCredentials.  The code does the opposite: the guard
`not bind_as_user` at line 182 skips the re-bind exactly when the bind
was made as the service account.  Evaluated at a concrete failing input
(wrong end-user password), the code returns success, its operation trace
contains no re-bind, and yet a re-bind as the entry's DN with that
password would have failed. -/
theorem ldap_C1_no_rebind_on_service_branch :
    async_validate_login cfg_service dir_service "alice" "wrong-password" =
      (ValidateResult.success "alice" "Alice Person",
        [LdapOp.connectBind AuthMethod.simple "uid=svc,dc=example,dc=com" "svcpw",
         LdapOp.searchOp "dc=example,dc=com" "(objectclass=person)" 1 10
           ["uid", "displayName", "memberOf"]])
    ∧ dir_service.bind AuthMethod.simple entry_alice.entry_dn "wrong-password" = false := by
  constructor <;> rfl

/-- Claim C2: the claim says that with bind-as-service-account disabled the end
user's credentials are the credentials of the only bind performed and no
re-bind occurs.  The code, with a correct password, performs a second
bind: after the search it re-binds as the found entry's DN (guard
`not bind_as_user` at line 182 fires on this branch).  The trace at a
concrete input shows two bind operations. -/
theorem ldap_C2_rebind_on_user_branch :
    async_validate_login cfg_user dir_user "bob" "pw" =
      (ValidateResult.success "bob" "Bob Person",
        [LdapOp.connectBind AuthMethod.simple "uid=bob,dc=example,dc=com" "pw",
         LdapOp.searchOp "dc=example,dc=com" "(objectclass=person)" 1 10
           ["uid", "displayName", "memberOf"],
         LdapOp.rebindOp "cn=bobby,dc=example,dc=com" "pw"]) := by
  rfl

/-- Claim C4: the claim says every failure — transport faults included — is
mapped by the login-flow step to `invalid_auth` or `error`.  The code
catches only `InvalidAuthError` and `LdapError` (with validate_login
converting only `LDAPBindError`); a socket-open failure raised by
`Connection(..., auto_bind=True)` on an unreachable server is neither and
escapes `async_step_init` uncaught. -/
theorem ldap_C4_transport_fault_escapes :
    async_step_init cfg_service dir_down
        (some [("username", "alice"), ("password", "pw")]) =
      StepResult.uncaught LdapException.socketOpenError := by
  rfl

/-! ### Shared helper lemmas -/

theorem getField_username (u p : String) :
    getField [("username", u), ("password", p)] "username" = u := rfl

theorem getField_password (u p : String) :
    getField [("username", u), ("password", p)] "password" = p := rfl

theorem foldl_if_or (p : String → Bool) :
    ∀ (l : List String) (b : Bool),
      l.foldl (fun member g => if p g then true else member) b = (b || l.any p) := by
  intro l
  induction l with
  | nil => intro b; simp
  | cons a l ih =>
    intro b
    simp only [List.foldl_cons, List.any_cons]
    rw [ih]
    cases hpa : p a <;> cases b <;> simp [hpa]

theorem group_member_eq_any (allowed userGroups : List String) :
    group_member allowed userGroups =
      allowed.any (fun a => (userGroups.map (fun g => g.toLower)).contains a.toLower) := by
  unfold group_member
  rw [foldl_if_or]
  simp

theorem group_member_iff (allowed userGroups : List String) :
    group_member allowed userGroups = true ↔
      ∃ a ∈ allowed, ∃ g ∈ userGroups, a.toLower = g.toLower := by
  rw [group_member_eq_any, List.any_eq_true]
  constructor
  · rintro ⟨a, ha, hc⟩
    have hmem : a.toLower ∈ userGroups.map (fun g => g.toLower) := List.elem_iff.mp hc
    rcases List.mem_map.mp hmem with ⟨g, hg, hgeq⟩
    exact ⟨a, ha, g, hg, hgeq.symm⟩
  · rintro ⟨a, ha, g, hg, heq⟩
    refine ⟨a, ha, ?_⟩
    exact List.elem_iff.mpr (List.mem_map.mpr ⟨g, hg, heq.symm⟩)

/-! ### Remaining claim theorems -/

/-- Claim C3: with bind-as-service-account enabled (`bind_as_user = true`), the
whole outcome of `async_validate_login` — result, extracted identity and
operation trace — is independent of the request's username and password:
the bind uses the configured service credentials, the person search does
not mention the request, and the re-bind branch is skipped. -/
theorem ldap_C3_request_independence (cfg : LdapConfig) (dir : LdapDirectory)
    (u₁ p₁ u₂ p₂ : String) (h : cfg.bind_as_user = true) :
    async_validate_login cfg dir u₁ p₁ = async_validate_login cfg dir u₂ p₂ := by
  unfold async_validate_login
  simp only [effective_bind_username, effective_bind_password, h, if_true]
  rfl

theorem ldap_C3_witness :
    async_validate_login cfg_service dir_service "alice" "right-password" =
      async_validate_login cfg_service dir_service "mallory" "wrong-password" :=
  ldap_C3_request_independence cfg_service dir_service
    "alice" "right-password" "mallory" "wrong-password" rfl

/-- Claim C5: when the person search under the configured base DN returns zero
entries, `async_validate_login` fails with `LdapError` (the
DirectoryQueryFailure kind), not InvalidCredentials, and `async_step_init`
maps that to the user-visible error code `error`. -/
theorem ldap_C5_zero_results_is_error (cfg : LdapConfig) (dir : LdapDirectory) (u p : String)
    (hconn : dir.connectOk = true)
    (hbind : dir.bind (bind_method cfg) (bind_user cfg (effective_bind_username cfg u))
      (effective_bind_password cfg p) = true)
    (htls : cfg.encryption ≠ Encryption.starttls)
    (hsearch : dir.search cfg.base_dn "(objectclass=person)" 1 cfg.timeout
      (search_attributes cfg) = none) :
    (async_validate_login cfg dir u p).fst = ValidateResult.ldapError
    ∧ async_step_init cfg dir (some [("username", u), ("password", p)]) =
        StepResult.showForm "init" ["username", "password"] [("base", "error")] := by
  have hv : (async_validate_login cfg dir u p).fst = ValidateResult.ldapError := by
    simp [async_validate_login, hconn, hbind, htls, hsearch]
  refine ⟨hv, ?_⟩
  simp only [async_step_init, getField_username, getField_password, hv]


theorem ldap_C5_witness :
    (async_validate_login cfg_service dir_empty "alice" "pw").fst = ValidateResult.ldapError
    ∧ async_step_init cfg_service dir_empty
        (some [("username", "alice"), ("password", "pw")]) =
        StepResult.showForm "init" ["username", "password"] [("base", "error")] :=
  ldap_C5_zero_results_is_error cfg_service dir_empty "alice" "pw" rfl rfl (by decide) rfl

/-- Claim C6: the group allow-list enforcement of lines 162-179.  The
membership test is case-insensitive (it holds exactly when some
allow-listed DN and some claimed group DN agree up to lower-casing); an
empty allow-list never denies (the only possible failure after it is the
re-bind's credentials failure); and when the allow-list is non-empty and
no group matches, the failure is the `InvalidAuthError` carrying the
canonical username in its detail. -/
theorem ldap_C6_group_allow_list (cfg : LdapConfig) (dir : LdapDirectory)
    (u p : String) (entry : LdapEntry)
    (hconn : dir.connectOk = true)
    (hbind : dir.bind (bind_method cfg) (bind_user cfg (effective_bind_username cfg u))
      (effective_bind_password cfg p) = true)
    (htls : cfg.encryption ≠ Encryption.starttls)
    (hsearch : dir.search cfg.base_dn "(objectclass=person)" 1 cfg.timeout
      (search_attributes cfg) = some entry) :
    (∀ allowed userGroups : List String,
      (group_member allowed userGroups = true ↔
        ∃ a ∈ allowed, ∃ g ∈ userGroups, a.toLower = g.toLower))
    ∧ (cfg.allowed_group_dns = [] →
        (async_validate_login cfg dir u p).fst =
            ValidateResult.success (entry.attrValue (username_attr cfg)) entry.displayName
        ∨ (async_validate_login cfg dir u p).fst =
            ValidateResult.invalidAuth "Invalid LDAP credentials provided")
    ∧ (cfg.allowed_group_dns ≠ [] →
        group_member cfg.allowed_group_dns entry.memberOf = false →
        (async_validate_login cfg dir u p).fst =
          ValidateResult.invalidAuth
            ("User " ++ entry.attrValue (username_attr cfg) ++
              " is not a member of any of the required groups")) := by
  refine ⟨fun allowed userGroups => group_member_iff allowed userGroups, ?_, ?_⟩
  · intro he
    cases hbu : cfg.bind_as_user with
    | false =>
      cases hrb : dir.bind (bind_method cfg) entry.entry_dn p with
      | false =>
        right
        simp [async_validate_login, hconn, hbind, htls, hsearch, he, hbu, hrb]
      | true =>
        left
        simp [async_validate_login, hconn, hbind, htls, hsearch, he, hbu, hrb]
    | true =>
      left
      simp [async_validate_login, hconn, hbind, htls, hsearch, he, hbu]
  · intro hne hgm
    simp [async_validate_login, hconn, hbind, htls, hsearch, hne, hgm]


theorem ldap_C6_witness :
    (∀ allowed userGroups : List String,
      (group_member allowed userGroups = true ↔
        ∃ a ∈ allowed, ∃ g ∈ userGroups, a.toLower = g.toLower))
    ∧ (cfg_group.allowed_group_dns = [] →
        (async_validate_login cfg_group dir_service "alice" "pw").fst =
            ValidateResult.success (entry_alice.attrValue (username_attr cfg_group))
              entry_alice.displayName
        ∨ (async_validate_login cfg_group dir_service "alice" "pw").fst =
            ValidateResult.invalidAuth "Invalid LDAP credentials provided")
    ∧ (cfg_group.allowed_group_dns ≠ [] →
        group_member cfg_group.allowed_group_dns entry_alice.memberOf = false →
        (async_validate_login cfg_group dir_service "alice" "pw").fst =
          ValidateResult.invalidAuth
            ("User " ++ entry_alice.attrValue (username_attr cfg_group) ++
              " is not a member of any of the required groups")) :=
  ldap_C6_group_allow_list cfg_group dir_service "alice" "pw" entry_alice
    rfl rfl (by decide) rfl

/-- Under an open connection, the first recorded operation of
`async_validate_login` is always the initial `Connection` bind. -/
theorem validate_trace_head (cfg : LdapConfig) (dir : LdapDirectory) (u p : String)
    (hconn : dir.connectOk = true) :
    (async_validate_login cfg dir u p).snd.get? 0 =
      some (LdapOp.connectBind (bind_method cfg)
        (bind_user cfg (effective_bind_username cfg u))
        (effective_bind_password cfg p)) := by
  cases hbind : dir.bind (bind_method cfg) (bind_user cfg (effective_bind_username cfg u))
      (effective_bind_password cfg p) with
  | false => simp [async_validate_login, hconn, hbind]
  | true =>
    by_cases he : cfg.encryption = Encryption.starttls
    case pos =>
      cases hst : dir.starttlsOk with
      | false => simp [async_validate_login, hconn, hbind, he, hst]
      | true =>
        rcases hs : dir.search cfg.base_dn "(objectclass=person)" 1 cfg.timeout
            (search_attributes cfg) with _ | entry
        · simp [async_validate_login, hconn, hbind, he, hst, hs]
        · by_cases hg : cfg.allowed_group_dns ≠ [] ∧
              group_member cfg.allowed_group_dns entry.memberOf = false
          · simp [async_validate_login, hconn, hbind, he, hst, hs, hg]
          · cases hbu : cfg.bind_as_user with
            | true => simp [async_validate_login, hconn, hbind, he, hst, hs, hg, hbu]
            | false =>
              cases hrb : dir.bind (bind_method cfg) entry.entry_dn p with
              | false => simp [async_validate_login, hconn, hbind, he, hst, hs, hg, hbu, hrb]
              | true => simp [async_validate_login, hconn, hbind, he, hst, hs, hg, hbu, hrb]
    case neg =>
      rcases hs : dir.search cfg.base_dn "(objectclass=person)" 1 cfg.timeout
          (search_attributes cfg) with _ | entry
      · simp [async_validate_login, hconn, hbind, he, hs]
      · by_cases hg : cfg.allowed_group_dns ≠ [] ∧
            group_member cfg.allowed_group_dns entry.memberOf = false
        · simp [async_validate_login, hconn, hbind, he, hs, hg]
        · cases hbu : cfg.bind_as_user with
          | true => simp [async_validate_login, hconn, hbind, he, hs, hg, hbu]
          | false =>
            cases hrb : dir.bind (bind_method cfg) entry.entry_dn p with
            | false => simp [async_validate_login, hconn, hbind, he, hs, hg, hbu, hrb]
            | true => simp [async_validate_login, hconn, hbind, he, hs, hg, hbu, hrb]

/-- Claim C7: in STARTTLS mode, the TLS upgrade call happens only after the
initial bind succeeded: if the bind fails no upgrade is recorded, and
whenever the upgrade appears in the operation trace, position 0 of the
trace is the initial bind (so the upgrade sits strictly after it) and
that bind succeeded. -/
theorem ldap_C7_starttls_after_bind (cfg : LdapConfig) (dir : LdapDirectory) (u p : String)
    (henc : cfg.encryption = Encryption.starttls) :
    (dir.bind (bind_method cfg) (bind_user cfg (effective_bind_username cfg u))
        (effective_bind_password cfg p) = false →
      LdapOp.starttlsOp ∉ (async_validate_login cfg dir u p).snd)
    ∧ (LdapOp.starttlsOp ∈ (async_validate_login cfg dir u p).snd →
        (async_validate_login cfg dir u p).snd.get? 0 =
          some (LdapOp.connectBind (bind_method cfg)
            (bind_user cfg (effective_bind_username cfg u))
            (effective_bind_password cfg p))
        ∧ dir.bind (bind_method cfg) (bind_user cfg (effective_bind_username cfg u))
            (effective_bind_password cfg p) = true) := by
  constructor
  · intro hbind
    cases hconn : dir.connectOk with
    | false => simp [async_validate_login, hconn]
    | true => simp [async_validate_login, hconn, hbind]
  · intro hmem
    cases hconn : dir.connectOk with
    | false => simp [async_validate_login, hconn] at hmem
    | true =>
      cases hbind : dir.bind (bind_method cfg) (bind_user cfg (effective_bind_username cfg u))
          (effective_bind_password cfg p) with
      | false => simp [async_validate_login, hconn, hbind] at hmem
      | true => exact ⟨validate_trace_head cfg dir u p hconn, rfl⟩


theorem ldap_C7_witness :
    (dir_service.bind (bind_method cfg_tls)
        (bind_user cfg_tls (effective_bind_username cfg_tls "alice"))
        (effective_bind_password cfg_tls "pw") = false →
      LdapOp.starttlsOp ∉ (async_validate_login cfg_tls dir_service "alice" "pw").snd)
    ∧ (LdapOp.starttlsOp ∈ (async_validate_login cfg_tls dir_service "alice" "pw").snd →
        (async_validate_login cfg_tls dir_service "alice" "pw").snd.get? 0 =
          some (LdapOp.connectBind (bind_method cfg_tls)
            (bind_user cfg_tls (effective_bind_username cfg_tls "alice"))
            (effective_bind_password cfg_tls "pw"))
        ∧ dir_service.bind (bind_method cfg_tls)
            (bind_user cfg_tls (effective_bind_username cfg_tls "alice"))
            (effective_bind_password cfg_tls "pw") = true) :=
  ldap_C7_starttls_after_bind cfg_tls dir_service "alice" "pw" rfl

/-- Claim C8: the login-flow round trip.  Called with no input, the step shows
the form requesting exactly the fields `username` and `password`; called
with credentials the decision engine accepts, it finishes with a payload
containing the username and no password field. -/
theorem ldap_C8_login_flow_round_trip (cfg : LdapConfig) (dir : LdapDirectory)
    (u p uid dn : String)
    (hsucc : (async_validate_login cfg dir u p).fst = ValidateResult.success uid dn) :
    async_step_init cfg dir none = StepResult.showForm "init" ["username", "password"] []
    ∧ async_step_init cfg dir (some [("username", u), ("password", p)]) =
        StepResult.finish [("username", u)] := by
  refine ⟨rfl, ?_⟩
  simp only [async_step_init, getField_username, getField_password, hsucc]
  rfl

theorem ldap_C8_witness :
    async_step_init cfg_service dir_service none =
        StepResult.showForm "init" ["username", "password"] []
    ∧ async_step_init cfg_service dir_service
        (some [("username", "alice"), ("password", "pw")]) =
        StepResult.finish [("username", "alice")] :=
  ldap_C8_login_flow_round_trip cfg_service dir_service "alice" "pw"
    "alice" "Alice Person" rfl

/-- Claim C9: `async_get_or_create_credentials` is idempotent per username:
whenever some stored credential's username equals the flow result's
username, an existing credential with that username is returned and no
new credential is created. -/
theorem ldap_C9_credentials_idempotent (stored : List Credential) (u : String)
    (c : Credential) (hmem : c ∈ stored) (hu : c.username = u) :
    ∃ c₀, async_get_or_create_credentials stored [("username", u)] =
        CredentialResult.existing c₀ ∧ c₀ ∈ stored ∧ c₀.username = u := by
  have hex : ∃ x ∈ stored, (fun c' => c'.username == u) x = true := ⟨c, hmem, by simp [hu]⟩
  rcases Option.isSome_iff_exists.mp (List.find?_isSome.mpr hex) with ⟨c₀, hfind⟩
  have hc₀mem : c₀ ∈ stored := List.mem_of_find?_eq_some hfind
  have hc₀u : c₀.username = u := by simpa using List.find?_some hfind
  refine ⟨c₀, ?_, hc₀mem, hc₀u⟩
  have hget : getField [("username", u)] "username" = u := rfl
  simp only [async_get_or_create_credentials, hget, hfind]


theorem ldap_C9_witness :
    ∃ c₀, async_get_or_create_credentials [cred_alice] [("username", "alice")] =
        CredentialResult.existing c₀ ∧ c₀ ∈ [cred_alice] ∧ c₀.username = "alice" :=
  ldap_C9_credentials_idempotent [cred_alice] "alice" cred_alice (by simp) rfl

/-- Claim C10: when the found entry fails the non-empty group allow-list check
and the re-bind with the entry's DN and the request's password would also
fail, the group check — which the code runs first — determines the
outcome: the failure is the group-denial `InvalidAuthError` carrying the
canonical username, not the re-bind's "Invalid LDAP credentials
provided", and the flow surfaces it as `invalid_auth`. -/
theorem ldap_C10_group_check_wins (cfg : LdapConfig) (dir : LdapDirectory)
    (u p : String) (entry : LdapEntry)
    (hconn : dir.connectOk = true)
    (hbind : dir.bind (bind_method cfg) (bind_user cfg (effective_bind_username cfg u))
      (effective_bind_password cfg p) = true)
    (htls : cfg.encryption ≠ Encryption.starttls)
    (hsearch : dir.search cfg.base_dn "(objectclass=person)" 1 cfg.timeout
      (search_attributes cfg) = some entry)
    (hne : cfg.allowed_group_dns ≠ [])
    (hgm : group_member cfg.allowed_group_dns entry.memberOf = false)
    (hbu : cfg.bind_as_user = false)
    (hrb : dir.bind (bind_method cfg) entry.entry_dn p = false) :
    (async_validate_login cfg dir u p).fst =
      ValidateResult.invalidAuth
        ("User " ++ entry.attrValue (username_attr cfg) ++
          " is not a member of any of the required groups")
    ∧ async_step_init cfg dir (some [("username", u), ("password", p)]) =
        StepResult.showForm "init" ["username", "password"] [("base", "invalid_auth")] := by
  have hv : (async_validate_login cfg dir u p).fst =
      ValidateResult.invalidAuth
        ("User " ++ entry.attrValue (username_attr cfg) ++
          " is not a member of any of the required groups") := by
    simp [async_validate_login, hconn, hbind, htls, hsearch, hne, hgm]
  refine ⟨hv, ?_⟩
  simp only [async_step_init, getField_username, getField_password, hv]



theorem ldap_C10_witness :
    (async_validate_login cfg_c10 dir_c10 "bob" "pw").fst =
      ValidateResult.invalidAuth
        ("User " ++ entry_bob.attrValue (username_attr cfg_c10) ++
          " is not a member of any of the required groups")
    ∧ async_step_init cfg_c10 dir_c10 (some [("username", "bob"), ("password", "pw")]) =
        StepResult.showForm "init" ["username", "password"] [("base", "invalid_auth")] :=
  ldap_C10_group_check_wins cfg_c10 dir_c10 "bob" "pw" entry_bob
    rfl rfl (by decide) rfl (by decide) rfl rfl rfl
